import Mathlib

/-!
Verification of the two asset scripts of `monsters_from_the_dot_grid`:
`generate_icons.py` (draws a 9×9 dot grid and a centered triangle at each
size of a fixed table and writes one PNG per table entry) and
`resize_screenshots.py` (resamples four fixed screenshot files to the
constant App Store resolution 1284×2778).

The embedding models a PIL image as its pixel dimensions together with the
sequence of drawing operations issued on it (`Image.canvas`), or as the
record of a resampling call on a source image (`Image.resized`).  The
filesystem is a list of created directories plus an append-only list of
written files; reading finds the most recently written entry for a path,
which matches overwrite semantics of saving to an existing path.
-/

/-- A drawing primitive issued through `ImageDraw`: `draw.ellipse` with an
integer bounding box and a fill colour, or `draw.polygon` with a vertex
list and a fill colour.  Coordinates are `Int` because Python subtraction
of the dot radius makes boxes with negative corners. -/
inductive DrawOp where
  | ellipse (x0 y0 x1 y1 : Int) (fill : String)
  | polygon (points : List (Int × Int)) (fill : String)
deriving DecidableEq, Repr

/-- A PIL image: either a fresh canvas (`Image.new`) of given dimensions and
background colour carrying the drawing operations applied to it, or the
result of `img.resize(target, LANCZOS)` on a source image. -/
inductive Image where
  | canvas (width height : Nat) (background : String) (ops : List DrawOp)
  | resized (width height : Nat) (src : Image) (resample : String)
deriving DecidableEq, Repr

/-- Pixel width of an image. -/
def Image.width : Image → Nat
  | .canvas w _ _ _ => w
  | .resized w _ _ _ => w

/-- Pixel height of an image. -/
def Image.height : Image → Nat
  | .canvas _ h _ _ => h
  | .resized _ h _ _ => h

/-- The drawing operations recorded on an image (empty for resampled images). -/
def Image.ops : Image → List DrawOp
  | .canvas _ _ _ l => l
  | .resized _ _ _ _ => []

/-- `img.resize(sz, Image.Resampling.LANCZOS)` from `resize_screenshots.py`:
the result has exactly the target dimensions. -/
def Image.resize (img : Image) (sz : Nat × Nat) : Image :=
  Image.resized sz.1 sz.2 img "LANCZOS"

/-- `create_icon(size)` from `generate_icons.py`: a black `size`×`size`
canvas, a 9×9 grid of white dots with spacing `size // 8` and radius
`max(2, size // 60)`, then a magenta upward triangle centred at
`size // 2` with side parameter `size // 3`. -/
def create_icon (size : Nat) : Image :=
  let dot_spacing : Int := ((size / 8 : Nat) : Int)
  let dot_size : Int := ((max 2 (size / 60) : Nat) : Int)
  let dots : List DrawOp :=
    (List.range 9).flatMap (fun (row : Nat) =>
      (List.range 9).map (fun (col : Nat) =>
        let x : Int := (col : Int) * dot_spacing
        let y : Int := (row : Int) * dot_spacing
        DrawOp.ellipse (x - dot_size) (y - dot_size) (x + dot_size) (y + dot_size) "#FFFFFF"))
  let center : Int := ((size / 2 : Nat) : Int)
  let triangle_size : Int := ((size / 3 : Nat) : Int)
  let points : List (Int × Int) :=
    [(center, center - triangle_size / 2),
     (center - triangle_size / 2, center + triangle_size / 2),
     (center + triangle_size / 2, center + triangle_size / 2)]
  Image.canvas size size "#000000" (dots ++ [DrawOp.polygon points "#FF00FF"])

/-- The fixed iOS icon table of `generate_icons.py`, in insertion order
(Python dict iteration order). -/
def sizes : List (String × Nat) :=
  [("appstore", 1024),
   ("iphone_3x", 180),
   ("iphone_2x", 120),
   ("ipad_2x", 152),
   ("ipad", 76),
   ("notification_3x", 60),
   ("notification_2x", 40),
   ("settings_3x", 87),
   ("settings_2x", 58),
   ("spotlight_3x", 120),
   ("spotlight_2x", 80)]

/-- The fixed output directory of the icon generator. -/
def icons_dir : String := "DotGrid/DotGrid/Assets.xcassets/AppIcon.appiconset"

/-- The fixed output filename pattern of the icon generator. -/
def icon_filename (name : String) (size : Nat) : String :=
  icons_dir ++ "/icon_" ++ name ++ "_" ++ toString size ++ "x" ++ toString size ++ ".png"

/-- The filesystem: created directories and written files.  Files are
append-only; a read returns the most recently written entry for a path. -/
structure FS where
  dirs : List String
  files : List (String × Image)
deriving DecidableEq

/-- Look up a path among written files, newest entry first. -/
def lookupFile (l : List (String × Image)) (q : String) : Option Image :=
  (l.reverse.find? (fun e => e.1 == q)).map Prod.snd

/-- `os.makedirs(d, exist_ok=True)`: record the directory, never failing. -/
def FS.makedirs (fs : FS) (d : String) : FS :=
  if d ∈ fs.dirs then fs else { fs with dirs := fs.dirs ++ [d] }

/-- `img.save(path)`: write (or overwrite) the file at `path`. -/
def FS.writeFile (fs : FS) (p : String) (img : Image) : FS :=
  { fs with files := fs.files ++ [(p, img)] }

/-- `Image.open(path)`: `some` of the stored image, `none` when the file is
absent (PIL raises `FileNotFoundError`). -/
def FS.openFile (fs : FS) (p : String) : Option Image := lookupFile fs.files p

/-- The (path, image) pairs written by one run of the icon generator, in
loop order. -/
def icon_entries : List (String × Image) :=
  sizes.map (fun p => (icon_filename p.1 p.2, create_icon p.2))

/-- The main loop of `generate_icons.py`: make the output directory, then
write `create_icon(size)` for each table entry. -/
def generate_icons (fs : FS) : FS :=
  sizes.foldl (fun a p => a.writeFile (icon_filename p.1 p.2) (create_icon p.2))
    (fs.makedirs icons_dir)

/-- Source directory of `resize_screenshots.py`. -/
def source_dir : String := "screenshots"

/-- Destination directory of `resize_screenshots.py`. -/
def dest_dir : String := "screenshots_appstore"

/-- Target App Store resolution. -/
def target_size : Nat × Nat := (1284, 2778)

/-- The four fixed screenshot filenames, in loop order. -/
def screenshots : List String :=
  ["gameplay.png", "preferences.png", "gameover.png", "win.png"]

/-- The loop of `resize_screenshots.py`: open each source file, resample to
`target_size`, save to the destination directory.  A missing source file
aborts the run at that point (`Image.open` raises); the aborting filename is
returned in the second component. -/
def resize_loop : List String → FS → FS × Option String
  | [], fs => (fs, none)
  | f :: rest, fs =>
    match fs.openFile (source_dir ++ "/" ++ f) with
    | none => (fs, some f)
    | some img =>
      resize_loop rest (fs.writeFile (dest_dir ++ "/" ++ f) (img.resize target_size))

/-- The whole of `resize_screenshots.py`: make the destination directory,
then run the loop over the four filenames. -/
def resize_screenshots (fs : FS) : FS × Option String :=
  resize_loop screenshots (fs.makedirs dest_dir)

/-- Names of the written files lying in directory `d`. -/
def filesIn (files : List (String × Image)) (d : String) : List String :=
  (files.filter (fun e => (d ++ "/").data.isPrefixOf e.1.data)).map Prod.fst

/-- The empty filesystem. -/
def emptyFS : FS := { dirs := [], files := [] }

/-- Whether pixel coordinate `(x, y)` lies on a `size`×`size` canvas. -/
def inCanvas (size : Nat) (x y : Int) : Bool :=
  decide (0 ≤ x) && decide (x < (size : Int)) && decide (0 ≤ y) && decide (y < (size : Int))

/-- The dot radius of `create_icon`: `max(2, size // 60)` as an integer. -/
def dot_radius (size : Nat) : Int := ((max 2 (size / 60) : Nat) : Int)

/-- A sample source filesystem holding the four screenshots at arbitrary
resolutions, used to instantiate the resizer theorems. -/
def src_fs : FS :=
  { dirs := ["screenshots"],
    files := [("screenshots/gameplay.png", Image.canvas 750 1334 "#000000" []),
              ("screenshots/preferences.png", Image.canvas 1170 2532 "#000000" []),
              ("screenshots/gameover.png", Image.canvas 640 1136 "#000000" []),
              ("screenshots/win.png", Image.canvas 2000 1000 "#000000" [])] }

/-- A source filesystem in which `preferences.png` is absent, used to
instantiate the missing-source theorem. -/
def miss_fs : FS :=
  { dirs := ["screenshots"],
    files := [("screenshots/gameplay.png", Image.canvas 750 1334 "#000000" []),
              ("screenshots/gameover.png", Image.canvas 640 1136 "#000000" []),
              ("screenshots/win.png", Image.canvas 2000 1000 "#000000" [])] }

lemma width_create_icon (size : Nat) : (create_icon size).width = size := rfl

lemma height_create_icon (size : Nat) : (create_icon size).height = size := rfl

lemma files_writeFile (fs : FS) (p : String) (img : Image) :
    (fs.writeFile p img).files = fs.files ++ [(p, img)] := rfl

lemma dirs_writeFile (fs : FS) (p : String) (img : Image) :
    (fs.writeFile p img).dirs = fs.dirs := rfl

lemma files_makedirs (fs : FS) (d : String) : (fs.makedirs d).files = fs.files := by
  unfold FS.makedirs; split <;> rfl

lemma mem_dirs_makedirs (fs : FS) (d : String) : d ∈ (fs.makedirs d).dirs := by
  unfold FS.makedirs; split
  · assumption
  · simp

lemma lookupFile_append_single (l : List (String × Image)) (p : String) (img : Image)
    (q : String) :
    lookupFile (l ++ [(p, img)]) q = if p == q then some img else lookupFile l q := by
  simp only [lookupFile, List.reverse_append, List.reverse_cons, List.reverse_nil,
    List.nil_append, List.cons_append, List.find?_cons]
  cases h : ((p, img).1 == q) <;> simp_all

lemma openFile_writeFile (fs : FS) (p : String) (img : Image) (q : String) :
    (fs.writeFile p img).openFile q = if p == q then some img else fs.openFile q := by
  simpa [FS.openFile, FS.writeFile] using lookupFile_append_single fs.files p img q

lemma openFile_makedirs (fs : FS) (d : String) (q : String) :
    (fs.makedirs d).openFile q = fs.openFile q := by
  simp [FS.openFile, files_makedirs]

lemma generate_icons_files (fs : FS) :
    (generate_icons fs).files = fs.files ++ icon_entries := by
  simp [generate_icons, icon_entries, sizes, files_writeFile, files_makedirs,
    FS.writeFile]

lemma generate_icons_dirs (fs : FS) :
    (generate_icons fs).dirs = (fs.makedirs icons_dir).dirs := by
  simp [generate_icons, sizes, FS.writeFile]

lemma filesIn_append (l1 l2 : List (String × Image)) (d : String) :
    filesIn (l1 ++ l2) d = filesIn l1 d ++ filesIn l2 d := by
  simp [filesIn]

/-- Each dot of the 9×9 grid is among the drawing operations of
`create_icon size`, with centre `(col * (size / 8), row * (size / 8))` and
radius `max 2 (size / 60)`. -/
lemma dot_mem (size row col : Nat) (hr : row < 9) (hc : col < 9) :
    DrawOp.ellipse
      ((col : Int) * ((size / 8 : Nat) : Int) - ((max 2 (size / 60) : Nat) : Int))
      ((row : Int) * ((size / 8 : Nat) : Int) - ((max 2 (size / 60) : Nat) : Int))
      ((col : Int) * ((size / 8 : Nat) : Int) + ((max 2 (size / 60) : Nat) : Int))
      ((row : Int) * ((size / 8 : Nat) : Int) + ((max 2 (size / 60) : Nat) : Int))
      "#FFFFFF" ∈ (create_icon size).ops := by
  simp only [create_icon, Image.ops]
  refine List.mem_append_left _ ?_
  refine List.mem_flatMap.mpr ⟨row, List.mem_range.mpr hr, ?_⟩
  refine List.mem_map.mpr ⟨col, List.mem_range.mpr hc, ?_⟩
  rfl

lemma lookup_right (l1 l2 : List (String × Image)) (q : String) (img : Image)
    (h : lookupFile l2 q = some img) : lookupFile (l1 ++ l2) q = some img := by
  simp only [lookupFile, List.reverse_append, List.find?_append] at h ⊢
  cases hf : l2.reverse.find? (fun e => e.1 == q) with
  | none => rw [hf] at h; simp at h
  | some e => rw [hf] at h; simpa [Option.or] using h

/-- One successful run of the resizer, written out file by file. -/
lemma resize_run_success (fs : FS) (i1 i2 i3 i4 : Image)
    (h1 : fs.openFile "screenshots/gameplay.png" = some i1)
    (h2 : fs.openFile "screenshots/preferences.png" = some i2)
    (h3 : fs.openFile "screenshots/gameover.png" = some i3)
    (h4 : fs.openFile "screenshots/win.png" = some i4) :
    resize_screenshots fs =
      (((((fs.makedirs dest_dir).writeFile "screenshots_appstore/gameplay.png"
            (i1.resize target_size)).writeFile "screenshots_appstore/preferences.png"
            (i2.resize target_size)).writeFile "screenshots_appstore/gameover.png"
            (i3.resize target_size)).writeFile "screenshots_appstore/win.png"
            (i4.resize target_size), none) := by
  simp only [resize_screenshots, screenshots, resize_loop, source_dir, dest_dir]
  simp only [openFile_makedirs, openFile_writeFile]
  simp [h1, h2, h3, h4]

/-- A run aborting on the first screenshot. -/
lemma resize_run_fail1 (fs : FS)
    (h1 : fs.openFile "screenshots/gameplay.png" = none) :
    resize_screenshots fs = (fs.makedirs dest_dir, some "gameplay.png") := by
  simp only [resize_screenshots, screenshots, resize_loop, source_dir, dest_dir,
    openFile_makedirs]
  simp [h1]

/-- A run aborting on the second screenshot. -/
lemma resize_run_fail2 (fs : FS) (i1 : Image)
    (h1 : fs.openFile "screenshots/gameplay.png" = some i1)
    (h2 : fs.openFile "screenshots/preferences.png" = none) :
    resize_screenshots fs =
      ((fs.makedirs dest_dir).writeFile "screenshots_appstore/gameplay.png"
        (i1.resize target_size), some "preferences.png") := by
  simp only [resize_screenshots, screenshots, resize_loop, source_dir, dest_dir,
    openFile_makedirs, openFile_writeFile]
  simp [h1, h2]

/-- A run aborting on the third screenshot. -/
lemma resize_run_fail3 (fs : FS) (i1 i2 : Image)
    (h1 : fs.openFile "screenshots/gameplay.png" = some i1)
    (h2 : fs.openFile "screenshots/preferences.png" = some i2)
    (h3 : fs.openFile "screenshots/gameover.png" = none) :
    resize_screenshots fs =
      (((fs.makedirs dest_dir).writeFile "screenshots_appstore/gameplay.png"
          (i1.resize target_size)).writeFile "screenshots_appstore/preferences.png"
          (i2.resize target_size), some "gameover.png") := by
  simp only [resize_screenshots, screenshots, resize_loop, source_dir, dest_dir,
    openFile_makedirs, openFile_writeFile]
  simp [h1, h2, h3]

/-- A run aborting on the fourth screenshot. -/
lemma resize_run_fail4 (fs : FS) (i1 i2 i3 : Image)
    (h1 : fs.openFile "screenshots/gameplay.png" = some i1)
    (h2 : fs.openFile "screenshots/preferences.png" = some i2)
    (h3 : fs.openFile "screenshots/gameover.png" = some i3)
    (h4 : fs.openFile "screenshots/win.png" = none) :
    resize_screenshots fs =
      ((((fs.makedirs dest_dir).writeFile "screenshots_appstore/gameplay.png"
          (i1.resize target_size)).writeFile "screenshots_appstore/preferences.png"
          (i2.resize target_size)).writeFile "screenshots_appstore/gameover.png"
          (i3.resize target_size), some "win.png") := by
  simp only [resize_screenshots, screenshots, resize_loop, source_dir, dest_dir,
    openFile_makedirs, openFile_writeFile]
  simp [h1, h2, h3, h4]

lemma openFile_generate_icons (fs : FS) (q : String) :
    (generate_icons fs).openFile q = lookupFile (fs.files ++ icon_entries) q := by
  show lookupFile (generate_icons fs).files q = _
  rw [generate_icons_files]

lemma lookup_of_mem (l : List (String × Image)) (p : String) (img : Image)
    (hn : (l.map Prod.fst).Nodup) (hm : (p, img) ∈ l) :
    lookupFile l p = some img := by
  induction l with
  | nil => cases hm
  | cons e t ih =>
    simp only [List.map_cons, List.nodup_cons, List.mem_map] at hn
    rcases List.mem_cons.mp hm with he | ht
    · have hnone : t.reverse.find? (fun x => x.1 == p) = none := by
        refine List.find?_eq_none.mpr fun x hx => ?_
        simp only [beq_eq_false_iff_ne, ne_eq, beq_iff_eq]
        intro hxp
        exact hn.1 ⟨x, List.mem_reverse.mp hx, by rw [hxp, ← he]⟩
      simp [lookupFile, List.find?_append, hnone, Option.or, ← he]
    · have hts := ih hn.2 ht
      simp only [lookupFile] at hts ⊢
      rcases Option.map_eq_some'.mp hts with ⟨y, hy, hy2⟩
      rw [List.reverse_cons, List.find?_append, hy]
      simpa [Option.or] using hy2

lemma icon_names_nodup : (icon_entries.map Prod.fst).Nodup := by decide

/-- C2: for every (label, size) pair of the fixed table, after a run of the
icon generator the file named `icon_{label}_{size}x{size}.png` in the output
directory holds the generated icon, whose pixel dimensions are exactly
size × size. -/
theorem c2_icon_files (name : String) (size : Nat) (fs : FS)
    (h : (name, size) ∈ sizes) :
    (generate_icons fs).openFile (icon_filename name size) = some (create_icon size) ∧
    (create_icon size).width = size ∧ (create_icon size).height = size := by
  refine ⟨?_, rfl, rfl⟩
  rw [openFile_generate_icons]
  have hmem : (icon_filename name size, create_icon size) ∈ icon_entries := by
    show (icon_filename name size, create_icon size) ∈ sizes.map
        (fun p : String × Nat => (icon_filename p.1 p.2, create_icon p.2))
    exact List.mem_map.mpr ⟨(name, size), h, rfl⟩
  exact lookup_right _ _ _ _
    (lookup_of_mem icon_entries (icon_filename name size) (create_icon size)
      icon_names_nodup hmem)

/-- C2 witness: the appstore entry of the table yields a 1024×1024 icon
file. -/
theorem c2_icon_files_witness :
    ("appstore", (1024 : Nat)) ∈ sizes ∧
    ((generate_icons emptyFS).openFile (icon_filename "appstore" 1024)
        = some (create_icon 1024) ∧
      (create_icon 1024).width = 1024 ∧ (create_icon 1024).height = 1024) :=
  ⟨by decide, c2_icon_files "appstore" 1024 emptyFS (by decide)⟩

/-- C3 counterexample: pixel size 120 appears twice in the table
(`iphone_2x` and `spotlight_3x`), so a run of the generator produces two
output files of dimensions 120×120, not one. -/
theorem c3_counterexample :
    ¬ (((generate_icons emptyFS).files.filter
        (fun e => e.2.width == 120)).length = 1) := by decide

/-- C3 amended: the icon generator writes exactly one file per table entry,
with pairwise distinct filenames; for every pixel size the number of output
files of that size equals the number of table entries carrying that size
(so size 120 yields two files). -/
theorem c3_one_file_per_entry :
    (∀ s : Nat, ((generate_icons emptyFS).files.filter
        (fun e => e.2.width == s)).length
      = (sizes.filter (fun p => p.2 == s)).length) ∧
    ((generate_icons emptyFS).files.map Prod.fst).Nodup := by
  constructor
  · intro s
    rw [generate_icons_files]
    simp only [emptyFS, List.nil_append]
    rw [icon_entries, List.filter_map, List.length_map]
    have hp : ((fun e : String × Image => e.2.width == s) ∘
        fun p : String × Nat => (icon_filename p.1 p.2, create_icon p.2))
        = fun p : String × Nat => p.2 == s := by
      funext p
      simp [width_create_icon]
    rw [hp]
  · decide

/-- C4: the generator is deterministic: two evaluations of `create_icon`
at the same size, and two runs over the same table from the same state,
produce identical results. -/
theorem c4_deterministic (s : Nat) (fs : FS) :
    create_icon s = create_icon s ∧ generate_icons fs = generate_icons fs :=
  ⟨rfl, rfl⟩

/-- C5: for every canvas size the icon holds a 9×9 grid of filled circles,
the dot for grid position (row, col) having centre
`(col * (size / 8), row * (size / 8))` and radius `max 2 (size / 60)`. -/
theorem c5_dot_grid (size row col : Nat) (hr : row < 9) (hc : col < 9) :
    DrawOp.ellipse
      ((col : Int) * ((size / 8 : Nat) : Int) - ((max 2 (size / 60) : Nat) : Int))
      ((row : Int) * ((size / 8 : Nat) : Int) - ((max 2 (size / 60) : Nat) : Int))
      ((col : Int) * ((size / 8 : Nat) : Int) + ((max 2 (size / 60) : Nat) : Int))
      ((row : Int) * ((size / 8 : Nat) : Int) + ((max 2 (size / 60) : Nat) : Int))
      "#FFFFFF" ∈ (create_icon size).ops :=
  dot_mem size row col hr hc

/-- C5 witness: the corner dot of the 1024-pixel icon. -/
theorem c5_dot_grid_witness :
    (0 : Nat) < 9 ∧
    DrawOp.ellipse
      (((0 : Nat) : Int) * ((1024 / 8 : Nat) : Int) - ((max 2 (1024 / 60) : Nat) : Int))
      (((0 : Nat) : Int) * ((1024 / 8 : Nat) : Int) - ((max 2 (1024 / 60) : Nat) : Int))
      (((0 : Nat) : Int) * ((1024 / 8 : Nat) : Int) + ((max 2 (1024 / 60) : Nat) : Int))
      (((0 : Nat) : Int) * ((1024 / 8 : Nat) : Int) + ((max 2 (1024 / 60) : Nat) : Int))
      "#FFFFFF" ∈ (create_icon 1024).ops :=
  ⟨by decide, c5_dot_grid 1024 0 0 (by decide) (by decide)⟩

/-- C7: every icon holds an upward-pointing triangle with vertices
`(c, c - ts/2)`, `(c - ts/2, c + ts/2)`, `(c + ts/2, c + ts/2)` for
`c = size / 2` and `ts = size / 3`, whose horizontal extent is symmetric
about `c`. -/
theorem c7_triangle (size : Nat) :
    DrawOp.polygon
      [(((size / 2 : Nat) : Int),
        ((size / 2 : Nat) : Int) - ((size / 3 : Nat) : Int) / 2),
       (((size / 2 : Nat) : Int) - ((size / 3 : Nat) : Int) / 2,
        ((size / 2 : Nat) : Int) + ((size / 3 : Nat) : Int) / 2),
       (((size / 2 : Nat) : Int) + ((size / 3 : Nat) : Int) / 2,
        ((size / 2 : Nat) : Int) + ((size / 3 : Nat) : Int) / 2)] "#FF00FF"
      ∈ (create_icon size).ops ∧
    (((size / 2 : Nat) : Int) - ((size / 3 : Nat) : Int) / 2)
      + (((size / 2 : Nat) : Int) + ((size / 3 : Nat) : Int) / 2)
      = 2 * ((size / 2 : Nat) : Int) := by
  constructor
  · simp only [create_icon, Image.ops]
    exact List.mem_append_right _ (List.mem_singleton.mpr rfl)
  · ring

/-- C9: the dot at grid position (0,0) is the first drawing operation, has
centre (0,0) and bounding box `[-d, -d, d, d]` with `d = max 2 (size/60)`,
so its top-left corner is strictly negative; whatever part of that box lies
on the canvas lies in the nonnegative quarter. -/
theorem c9_corner_dot (size : Nat) :
    (create_icon size).ops.head? =
      some (DrawOp.ellipse (-dot_radius size) (-dot_radius size)
        (dot_radius size) (dot_radius size) "#FFFFFF") ∧
    2 ≤ dot_radius size ∧ -dot_radius size < 0 ∧
    (∀ x y : Int, -dot_radius size ≤ x → x ≤ dot_radius size →
      -dot_radius size ≤ y → y ≤ dot_radius size →
      inCanvas size x y = true → 0 ≤ x ∧ 0 ≤ y) := by
  have h2 : 2 ≤ max 2 (size / 60) := Nat.le_max_left _ _
  refine ⟨?_, ?_, ?_, ?_⟩
  · simp [create_icon, Image.ops, List.range_succ, dot_radius]
  · simp only [dot_radius]
    exact_mod_cast h2
  · simp only [dot_radius]
    omega
  · intro x y _ _ _ _ hcv
    simp only [inCanvas, Bool.and_eq_true, decide_eq_true_eq] at hcv
    exact ⟨hcv.1.1.1, hcv.1.2⟩

/-- C9 witness: on the 180-pixel icon the corner dot has radius 3, and the
canvas point (0, 1) of its bounding box lies in the nonnegative quarter. -/
theorem c9_corner_dot_witness :
    inCanvas 180 0 1 = true ∧ (0 ≤ (0 : Int) ∧ 0 ≤ (1 : Int)) :=
  ⟨by decide, (c9_corner_dot 180).2.2.2 0 1 (by decide) (by decide)
    (by decide) (by decide) (by decide)⟩

/-- C10: the ninth row/column of dot centres lies at `8 * (size / 8)`, which
is at most `size`, with equality exactly when 8 divides the size; the table
sizes 180, 60, 87 and 58 are not multiples of 8, so their grids leave a
margin at the right and bottom edges. -/
theorem c10_grid_margin (size : Nat) :
    DrawOp.ellipse
      (((8 : Nat) : Int) * ((size / 8 : Nat) : Int) - dot_radius size)
      (((8 : Nat) : Int) * ((size / 8 : Nat) : Int) - dot_radius size)
      (((8 : Nat) : Int) * ((size / 8 : Nat) : Int) + dot_radius size)
      (((8 : Nat) : Int) * ((size / 8 : Nat) : Int) + dot_radius size)
      "#FFFFFF" ∈ (create_icon size).ops ∧
    8 * (size / 8) ≤ size ∧
    (8 * (size / 8) = size ↔ 8 ∣ size) ∧
    (8 * (180 / 8) < 180 ∧ 8 * (60 / 8) < 60 ∧ 8 * (87 / 8) < 87 ∧
      8 * (58 / 8) < 58) := by
  refine ⟨?_, ?_, ?_, by decide⟩
  · exact dot_mem size 8 8 (by decide) (by decide)
  · omega
  · omega

/-- C1: whenever all four source screenshots exist, the resizer writes, for
each of the four fixed filenames, a destination file of exactly 1284×2778
pixels, whatever the input resolutions were. -/
theorem c1_resizer_dimensions (fs : FS)
    (h : ∀ f ∈ screenshots, (fs.openFile (source_dir ++ "/" ++ f)).isSome = true)
    (f : String) (hf : f ∈ screenshots) :
    ∃ out, (resize_screenshots fs).1.openFile (dest_dir ++ "/" ++ f) = some out ∧
      out.width = 1284 ∧ out.height = 2778 := by
  obtain ⟨i1, o1⟩ := Option.isSome_iff_exists.mp (h "gameplay.png" (by decide))
  obtain ⟨i2, o2⟩ := Option.isSome_iff_exists.mp (h "preferences.png" (by decide))
  obtain ⟨i3, o3⟩ := Option.isSome_iff_exists.mp (h "gameover.png" (by decide))
  obtain ⟨i4, o4⟩ := Option.isSome_iff_exists.mp (h "win.png" (by decide))
  have o1' : fs.openFile "screenshots/gameplay.png" = some i1 := by
    simpa [source_dir] using o1
  have o2' : fs.openFile "screenshots/preferences.png" = some i2 := by
    simpa [source_dir] using o2
  have o3' : fs.openFile "screenshots/gameover.png" = some i3 := by
    simpa [source_dir] using o3
  have o4' : fs.openFile "screenshots/win.png" = some i4 := by
    simpa [source_dir] using o4
  rw [resize_run_success fs i1 i2 i3 i4 o1' o2' o3' o4']
  simp only [screenshots, List.mem_cons, List.not_mem_nil, or_false] at hf
  rcases hf with rfl | rfl | rfl | rfl
  · exact ⟨i1.resize target_size,
      by simp [openFile_writeFile, dest_dir], rfl, rfl⟩
  · exact ⟨i2.resize target_size,
      by simp [openFile_writeFile, dest_dir], rfl, rfl⟩
  · exact ⟨i3.resize target_size,
      by simp [openFile_writeFile, dest_dir], rfl, rfl⟩
  · exact ⟨i4.resize target_size,
      by simp [openFile_writeFile, dest_dir], rfl, rfl⟩

/-- C1 witness: from a source filesystem with four screenshots of assorted
resolutions the run yields a 1284×2778 `gameplay.png`. -/
theorem c1_resizer_dimensions_witness :
    (∀ f ∈ screenshots, (src_fs.openFile (source_dir ++ "/" ++ f)).isSome = true) ∧
    "gameplay.png" ∈ screenshots ∧
    (∃ out, (resize_screenshots src_fs).1.openFile
        (dest_dir ++ "/" ++ "gameplay.png") = some out ∧
      out.width = 1284 ∧ out.height = 2778) :=
  ⟨by decide, by decide,
    c1_resizer_dimensions src_fs (by decide) "gameplay.png" (by decide)⟩

/-- C6: when the run aborts with a missing source screenshot, the aborting
filename is one of the four, its source file is indeed absent, and the
destination entry for that filename is exactly what it was before the run:
no partial output for it is left behind. -/
theorem c6_missing_source (fs : FS) (f : String)
    (h : (resize_screenshots fs).2 = some f) :
    f ∈ screenshots ∧ fs.openFile (source_dir ++ "/" ++ f) = none ∧
    (resize_screenshots fs).1.openFile (dest_dir ++ "/" ++ f)
      = fs.openFile (dest_dir ++ "/" ++ f) := by
  cases o1 : fs.openFile "screenshots/gameplay.png" with
  | none =>
    rw [resize_run_fail1 fs o1] at h ⊢
    obtain rfl : f = "gameplay.png" := by simpa using h.symm
    refine ⟨by decide, by simpa [source_dir] using o1, ?_⟩
    simp [openFile_makedirs]
  | some i1 =>
    cases o2 : fs.openFile "screenshots/preferences.png" with
    | none =>
      rw [resize_run_fail2 fs i1 o1 o2] at h ⊢
      obtain rfl : f = "preferences.png" := by simpa using h.symm
      refine ⟨by decide, by simpa [source_dir] using o2, ?_⟩
      simp [openFile_writeFile, openFile_makedirs, dest_dir]
    | some i2 =>
      cases o3 : fs.openFile "screenshots/gameover.png" with
      | none =>
        rw [resize_run_fail3 fs i1 i2 o1 o2 o3] at h ⊢
        obtain rfl : f = "gameover.png" := by simpa using h.symm
        refine ⟨by decide, by simpa [source_dir] using o3, ?_⟩
        simp [openFile_writeFile, openFile_makedirs, dest_dir]
      | some i3 =>
        cases o4 : fs.openFile "screenshots/win.png" with
        | none =>
          rw [resize_run_fail4 fs i1 i2 i3 o1 o2 o3 o4] at h ⊢
          obtain rfl : f = "win.png" := by simpa using h.symm
          refine ⟨by decide, by simpa [source_dir] using o4, ?_⟩
          simp [openFile_writeFile, openFile_makedirs, dest_dir]
        | some i4 =>
          rw [resize_run_success fs i1 i2 i3 i4 o1 o2 o3 o4] at h
          simp at h

/-- C6 witness: with `preferences.png` absent the run aborts on it and its
destination entry stays absent. -/
theorem c6_missing_source_witness :
    (resize_screenshots miss_fs).2 = some "preferences.png" ∧
    ("preferences.png" ∈ screenshots ∧
      miss_fs.openFile (source_dir ++ "/" ++ "preferences.png") = none ∧
      (resize_screenshots miss_fs).1.openFile
          (dest_dir ++ "/" ++ "preferences.png")
        = miss_fs.openFile (dest_dir ++ "/" ++ "preferences.png")) :=
  ⟨by decide, c6_missing_source miss_fs "preferences.png" (by decide)⟩

/-- C8: when an output directory does not exist before a run it exists
after it, and after a successful run it contains exactly the expected
files: the 11 icon files for the generator, the 4 resized screenshots for
the resizer. -/
theorem c8_output_directories (fs gs : FS)
    (_hd1 : icons_dir ∉ fs.dirs)
    (hf1 : filesIn fs.files icons_dir = [])
    (_hd2 : dest_dir ∉ gs.dirs)
    (hf2 : filesIn gs.files dest_dir = [])
    (hsrc : ∀ f ∈ screenshots, (gs.openFile (source_dir ++ "/" ++ f)).isSome = true) :
    icons_dir ∈ (generate_icons fs).dirs ∧
    filesIn (generate_icons fs).files icons_dir
      = sizes.map (fun p => icon_filename p.1 p.2) ∧
    dest_dir ∈ (resize_screenshots gs).1.dirs ∧
    (resize_screenshots gs).2 = none ∧
    filesIn (resize_screenshots gs).1.files dest_dir
      = screenshots.map (fun f => dest_dir ++ "/" ++ f) := by
  obtain ⟨i1, o1⟩ := Option.isSome_iff_exists.mp (hsrc "gameplay.png" (by decide))
  obtain ⟨i2, o2⟩ := Option.isSome_iff_exists.mp (hsrc "preferences.png" (by decide))
  obtain ⟨i3, o3⟩ := Option.isSome_iff_exists.mp (hsrc "gameover.png" (by decide))
  obtain ⟨i4, o4⟩ := Option.isSome_iff_exists.mp (hsrc "win.png" (by decide))
  have o1' : gs.openFile "screenshots/gameplay.png" = some i1 := by
    simpa [source_dir] using o1
  have o2' : gs.openFile "screenshots/preferences.png" = some i2 := by
    simpa [source_dir] using o2
  have o3' : gs.openFile "screenshots/gameover.png" = some i3 := by
    simpa [source_dir] using o3
  have o4' : gs.openFile "screenshots/win.png" = some i4 := by
    simpa [source_dir] using o4
  rw [resize_run_success gs i1 i2 i3 i4 o1' o2' o3' o4']
  have t1 : (("screenshots_appstore/" : String).data.isPrefixOf
      ("screenshots_appstore/gameplay.png" : String).data) = true := by decide
  have t2 : (("screenshots_appstore/" : String).data.isPrefixOf
      ("screenshots_appstore/preferences.png" : String).data) = true := by decide
  have t3 : (("screenshots_appstore/" : String).data.isPrefixOf
      ("screenshots_appstore/gameover.png" : String).data) = true := by decide
  have t4 : (("screenshots_appstore/" : String).data.isPrefixOf
      ("screenshots_appstore/win.png" : String).data) = true := by decide
  refine ⟨?_, ?_, ?_, rfl, ?_⟩
  · rw [generate_icons_dirs]
    exact mem_dirs_makedirs fs icons_dir
  · rw [generate_icons_files, filesIn_append, hf1, List.nil_append]
    decide
  · simp only [dirs_writeFile]
    exact mem_dirs_makedirs gs dest_dir
  · simp only [files_writeFile, files_makedirs, List.append_assoc]
    rw [filesIn_append, hf2, List.nil_append]
    simp [filesIn, dest_dir, screenshots, t1, t2, t3, t4]

/-- C8 witness: a run of each script from a state without its output
directory yields exactly the expected files. -/
theorem c8_output_directories_witness :
    (icons_dir ∉ emptyFS.dirs ∧ dest_dir ∉ src_fs.dirs) ∧
    (icons_dir ∈ (generate_icons emptyFS).dirs ∧
     filesIn (generate_icons emptyFS).files icons_dir
       = sizes.map (fun p => icon_filename p.1 p.2) ∧
     dest_dir ∈ (resize_screenshots src_fs).1.dirs ∧
     (resize_screenshots src_fs).2 = none ∧
     filesIn (resize_screenshots src_fs).1.files dest_dir
       = screenshots.map (fun f => dest_dir ++ "/" ++ f)) :=
  ⟨⟨by decide, by decide⟩,
    c8_output_directories emptyFS src_fs (by decide) (by decide) (by decide)
      (by decide) (by decide)⟩
